import Mathlib

/-!
Shallow embedding of the Newton's-Third-Law teaching simulation
(`src/App.tsx`, `src/components/GravitySimulation.tsx`, `src/components/simShared.tsx`).

Numbers are modelled as exact rationals (the source computes with JS numbers;
all constants are decimal literals, so the rational model tracks the intended
arithmetic).  `Math.round` is modelled by Mathlib's `round` (both send `x` to
`⌊x + 1/2⌋`).  The per-frame `draw` callbacks mutate a state record held in a
ref; we model the state-mutating part of one animation frame as a pure
`tick : State → State` function, and each UI handler (`handleStrike`, `reset`,
the view-mode switch, the sliders, the 3-second hold timer) as a pure function
on the same record.
-/

namespace NewtonLab

/-- View mode of either simulation: `'diagram' | 'explore'` in the source. -/
inductive ViewMode
| diagram
| explore
deriving DecidableEq

/-- Phase of the contact state machine: `'idle' | 'down' | 'contact' | 'up'`
(the spec calls these idle / descending / contact / rising). -/
inductive Phase
| idle
| down
| contact
| up
deriving DecidableEq

/-- The published `impact` React state: `{ force: number, active: boolean }`.
The force is an integer because `calculateForce` applies `Math.round`. -/
structure Impact where
  force : ℤ
  active : Bool
deriving DecidableEq

/-- A rendered arrow as passed to `drawArrow(ctx, fromX, fromY, toX, toY, ...)`:
the shaft is the segment from `(fromX, fromY)` to `(toX, toY)`. -/
structure Arrow where
  fromX : ℚ
  fromY : ℚ
  toX : ℚ
  toY : ℚ
deriving DecidableEq

/-- Squared Euclidean length of an arrow's shaft.  Two arrows have equal
(Euclidean) rendered length iff their `lenSq` agree, lengths being the
nonnegative square roots of these values. -/
def Arrow.lenSq (a : Arrow) : ℚ :=
  (a.toX - a.fromX) ^ 2 + (a.toY - a.fromY) ^ 2

namespace Contact

/-- `calculateForce = () => Math.round(mass * velocity * 22)` (App.tsx). -/
def calculateForce (mass velocity : ℚ) : ℤ :=
  round (mass * velocity * 22)

/-- Complete mutable state of one `ContactForceSimulation` instance:
the `stateRef` record (`phase`, `hammerY`, `nailY`, `impactFrames`,
`targetNailY`, `ready`) together with the React states consumed by the
frame logic (`mass`, `velocity`, `isStriking`, `isHoldingContact`,
`impact`, `viewMode`). -/
structure State where
  phase : Phase
  hammerY : ℚ
  nailY : ℚ
  impactFrames : ℕ
  targetNailY : ℚ
  ready : Bool
  mass : ℚ
  velocity : ℚ
  isStriking : Bool
  isHoldingContact : Bool
  impact : Impact
  viewMode : ViewMode
deriving DecidableEq

/-- Initial component state: `useState(5)` for mass and velocity,
`useState(false)` for the flags, `useState({force: 0, active: false})`,
`useState<'diagram'|'explore'>('diagram')`, and the zeroed `stateRef`. -/
def init : State :=
  { phase := Phase.idle
    hammerY := 0
    nailY := 0
    impactFrames := 0
    targetNailY := 0
    ready := false
    mass := 5
    velocity := 5
    isStriking := false
    isHoldingContact := false
    impact := { force := 0, active := false }
    viewMode := ViewMode.diagram }

/-- The state-mutating part of one frame of `draw` in the current
`ContactForceSimulation` (App.tsx lines ~1311-1399): geometry
initialization when `!ready`, the diagram-mode override, and the
explore-mode phase machine.  `scale = height/600`,
`groundY = height * 0.72`, `nailHeight = 70*scale`,
`hammerHeadHeight = 40*scale` (so `targetHammerY = nailY - 24*scale`),
`step = velocity * 2.6 * scale`. -/
def tick (height : ℚ) (s0 : State) : State :=
  let scale := height / 600
  let groundY := height * (72 / 100)
  let s :=
    if s0.ready then s0
    else { s0 with
            hammerY := groundY - 200 * scale
            nailY := groundY - 70 * scale
            ready := true }
  match s.viewMode with
  | ViewMode.diagram =>
      let s1 := { s with
                   hammerY := groundY - 170 * scale
                   nailY := groundY - 70 * scale
                   phase := Phase.contact }
      if s1.impact.active then s1
      else { s1 with impact := { force := calculateForce s1.mass s1.velocity, active := true } }
  | ViewMode.explore =>
      match s.phase with
      | Phase.idle => s
      | Phase.down =>
          let targetHammerY := s.nailY - 24 * scale
          let hy := s.hammerY + s.velocity * (13 / 5) * scale
          if targetHammerY ≤ hy then
            let forceVal := calculateForce s.mass s.velocity
            let depth := min (32 * scale) ((forceVal : ℚ) / 55)
            { s with
               hammerY := targetHammerY
               phase := Phase.contact
               impactFrames := 0
               impact := { force := forceVal, active := true }
               targetNailY := min (groundY - 10 * scale) (s.nailY + depth)
               isHoldingContact := true }
          else { s with hammerY := hy }
      | Phase.contact =>
          if s.isHoldingContact then s
          else
            let frames := s.impactFrames + 1
            let s1 :=
              if s.nailY < s.targetNailY then
                { s with
                   nailY := s.nailY + (3 / 2) * scale
                   hammerY := s.hammerY + (3 / 2) * scale
                   impactFrames := frames }
              else { s with impactFrames := frames }
            if 32 < frames then
              { s1 with phase := Phase.up, impact := { force := s1.impact.force, active := false } }
            else s1
      | Phase.up =>
          let hy := s.hammerY - 4 * scale
          if hy ≤ groundY - 200 * scale then
            { s with
               hammerY := groundY - 200 * scale
               phase := Phase.idle
               isStriking := false }
          else { s with hammerY := hy }

/-- `handleStrike` (App.tsx lines ~1525-1531): guarded on `isStriking`, it
sets `isStriking`, clears `isHoldingContact`, publishes
`{force: 0, active: false}` and jumps the ref's phase to `'down'`. -/
def handleStrike (s : State) : State :=
  if s.isStriking then s
  else { s with
          isStriking := true
          isHoldingContact := false
          impact := { force := 0, active := false }
          phase := Phase.down }

/-- `reset` (App.tsx lines ~1251-1263): zeroes the `stateRef` record,
publishes `{force: 0, active: false}` and clears both flags.  The mass,
velocity and view-mode React states are untouched. -/
def reset (s : State) : State :=
  { s with
     phase := Phase.idle
     hammerY := 0
     nailY := 0
     impactFrames := 0
     targetNailY := 0
     ready := false
     impact := { force := 0, active := false }
     isStriking := false
     isHoldingContact := false }

/-- The view-mode switch handler
`onChange={(_, checked) => setViewMode(checked ? 'explore' : 'diagram')}`
(App.tsx lines ~1627-1635): it only updates the `viewMode` React state. -/
def setViewMode (m : ViewMode) (s : State) : State :=
  { s with viewMode := m }

/-- The Hammer-Mass slider handler (`onChange={setMass}`). -/
def setMass (q : ℚ) (s : State) : State :=
  { s with mass := q }

/-- The Swing-Speed slider handler (`onChange={setVelocity}`). -/
def setVelocity (q : ℚ) (s : State) : State :=
  { s with velocity := q }

/-- End of the contact hold: either the 3000 ms timer firing or the
Continue button (`continueAfterContact`); both just clear `isHoldingContact`. -/
def holdDone (s : State) : State :=
  { s with isHoldingContact := false }

/-- One external event of the contact simulation. -/
inductive Op
| tick (height : ℚ)
| strike
| reset
| setView (m : ViewMode)
| setMass (q : ℚ)
| setVelocity (q : ℚ)
| holdDone

/-- Apply one event to the state. -/
def applyOp (op : Op) (s : State) : State :=
  match op with
  | Op.tick height => tick height s
  | Op.strike => handleStrike s
  | Op.reset => reset s
  | Op.setView m => setViewMode m s
  | Op.setMass q => setMass q s
  | Op.setVelocity q => setVelocity q s
  | Op.holdDone => holdDone s

/-- Run a sequence of events from the initial component state. -/
def run (ops : List Op) : State :=
  ops.foldl (fun s op => applyOp op s) init

/-- The two force arrows of the contact scene, as drawn when
`state.phase === 'contact'` (App.tsx lines ~1467-1497):
`arrowLength = Math.min(140*scale, forceMag/9)`, `arrowX = nailX - 45*scale`,
F_H drawn from `(arrowX, nailY + 10*scale)` to `(arrowX, nailY + arrowLength)`,
F_N drawn from `(arrowX, nailY + 10*scale)` to
`(arrowX, nailY - arrowLength + 10*scale)`.  First component: F_H (hammer on
nail); second: F_N (nail on hammer). -/
def arrows (width height : ℚ) (s : State) : Arrow × Arrow :=
  let scale := height / 600
  let nailX := width * (1 / 2)
  let forceMag : ℚ := (calculateForce s.mass s.velocity : ℚ)
  let arrowLength := min (140 * scale) (forceMag / 9)
  let arrowX := nailX - 45 * scale
  ({ fromX := arrowX, fromY := s.nailY + 10 * scale
     toX := arrowX, toY := s.nailY + arrowLength },
   { fromX := arrowX, fromY := s.nailY + 10 * scale
     toX := arrowX, toY := s.nailY - arrowLength + 10 * scale })

/-- A concrete explore-mode component state at the end of the contact
phase on a 960 x 600 surface: the striker rests on the nail
(nailY = groundY - 70 = 362, hammerY = nailY - 24 = 338), the internal
tick counter has reached 32, the published impact is the force sampled
at the strike (550, from mass 5 x speed 5 x 22), still active, and the
mass slider has since been moved to 10.  Reached by: switch to explore,
strike at mass = speed = 5, let the hold elapse, tick until the counter
reaches 32, then move the mass slider to 10. -/
def contactEndScenario : State :=
  { phase := Phase.contact
    hammerY := 338
    nailY := 362
    impactFrames := 32
    targetNailY := 372
    ready := true
    mass := 10
    velocity := 5
    isStriking := true
    isHoldingContact := false
    impact := { force := 550, active := true }
    viewMode := ViewMode.explore }

end Contact

namespace Gravity

/-- `calculateGravity` (GravitySimulation.tsx lines 49-53):
`G = 24000; Math.max(0.5, G*earthMass*moonMass/(distance*distance))`. -/
def calculateGravity (m1 m2 r : ℚ) : ℚ :=
  max (1 / 2) (24000 * m1 * m2 / (r * r))

/-- Mutable state of one `GravitySimulation` instance: the React parameter
states (`earthMass`, `moonMass`, `distance`, `isPaused`, `viewMode`) and the
refs `angleRef` / `timeRef`. -/
structure State where
  earthMass : ℚ
  moonMass : ℚ
  distance : ℚ
  isPaused : Bool
  viewMode : ViewMode
  angle : ℚ
  time : ℚ
deriving DecidableEq

/-- Initial component state: `useState(6)`, `useState(3)`, `useState(220)`,
`useState(false)`, `useState('diagram')`, `useRef(0)`, `useRef(0)`. -/
def init : State :=
  { earthMass := 6
    moonMass := 3
    distance := 220
    isPaused := false
    viewMode := ViewMode.diagram
    angle := 0
    time := 0 }

/-- The state-mutating part of one frame of the gravity `draw`
(GravitySimulation.tsx lines 124-130): when not paused and in explore mode
`angleRef += 0.003 + (260/distance)*0.002`; when not paused
`timeRef += 0.02`. -/
def tick (s : State) : State :=
  let s1 :=
    if s.isPaused = false ∧ s.viewMode = ViewMode.explore then
      { s with angle := s.angle + (3 / 1000 + (260 / s.distance) * (2 / 1000)) }
    else s
  if s1.isPaused = false then { s1 with time := s1.time + 2 / 100 } else s1

/-- `reset` (GravitySimulation.tsx lines 331-336): restores the three
parameters and zeroes `angleRef`; `timeRef` and `isPaused` are untouched. -/
def reset (s : State) : State :=
  { s with earthMass := 6, moonMass := 3, distance := 220, angle := 0 }

/-- The view-mode switch handler
`onChange={(_, checked) => setViewMode(checked ? 'explore' : 'diagram')}`
(GravitySimulation.tsx lines 435-443): it only updates `viewMode`. -/
def setViewMode (m : ViewMode) (s : State) : State :=
  { s with viewMode := m }

/-- The Pause/Resume control: updates only `isPaused`. -/
def setIsPaused (b : Bool) (s : State) : State :=
  { s with isPaused := b }

/-- The two gravity force arrows (GravitySimulation.tsx lines 155-184).
`earthRadius = 26 + earthMass*2.6`, `moonRadius = 12 + moonMass*1.6`,
`arrowLength = Math.min(distance - earthRadius - moonRadius - 6,
40 + forceMag*1.4)`.  The moon sits at `center + distance * u` where `u` is
`(1,0)` in diagram mode and `(cos angle, sin angle)` in explore mode; we pass
that unit direction as `(cA, sA)` (the source computes it with
`Math.cos/Math.sin` of `angleRef`).  The code then takes
`angleToEarth = atan2(centerY-moonY, centerX-moonX)` and
`angleToMoon = atan2(moonY-centerY, moonX-centerX)` and multiplies their
cosine/sine by `arrowLength`: for a moon at `center + distance * u` with `u`
a unit vector these directions are exactly `-u` and `u`.  First component:
F_E (earth on moon, drawn at the moon); second: F_M (moon on earth, drawn at
the earth). -/
def arrows (width height cA sA : ℚ) (s : State) : Arrow × Arrow :=
  let centerX := width * (1 / 2)
  let centerY := height * (1 / 2)
  let earthRadius := 26 + s.earthMass * (26 / 10)
  let moonRadius := 12 + s.moonMass * (16 / 10)
  let ux := if s.viewMode = ViewMode.diagram then 1 else cA
  let uy := if s.viewMode = ViewMode.diagram then 0 else sA
  let moonX := centerX + ux * s.distance
  let moonY := centerY + uy * s.distance
  let forceMag := calculateGravity s.earthMass s.moonMass s.distance
  let arrowLength := min (s.distance - earthRadius - moonRadius - 6) (40 + forceMag * (14 / 10))
  ({ fromX := moonX, fromY := moonY
     toX := moonX - arrowLength * ux, toY := moonY - arrowLength * uy },
   { fromX := centerX, fromY := centerY
     toX := centerX + arrowLength * ux, toY := centerY + arrowLength * uy })

end Gravity

/-! ## Theorems -/

/-- C3: the contact-force calculator is the pure function
round(mass * speed * 22): on the whole slider range it agrees with the
spec formula, and because the sliders produce integers (step 1) the
rounding is exact, giving mass * speed * 22 on the nose. -/
theorem calculateForce_spec :
    (∀ m v : ℚ, 1 ≤ m → m ≤ 10 → 1 ≤ v → v ≤ 10 →
        Contact.calculateForce m v = round (m * v * 22)) ∧
    (∀ m v : ℤ, 1 ≤ m → m ≤ 10 → 1 ≤ v → v ≤ 10 →
        Contact.calculateForce (m : ℚ) (v : ℚ) = m * v * 22) := by
  constructor
  · intro m v _ _ _ _
    rfl
  · intro m v _ _ _ _
    unfold Contact.calculateForce
    have h : (m : ℚ) * (v : ℚ) * 22 = ((m * v * 22 : ℤ) : ℚ) := by push_cast; ring
    rw [h, round_intCast]

/-- Witness for C3: at mass = 5, speed = 5 the force is 550. -/
theorem calculateForce_spec_witness : Contact.calculateForce 5 5 = 550 := by
  have h := calculateForce_spec.2 5 5 (by decide) (by decide) (by decide) (by decide)
  norm_num at h
  exact h

/-- C4: the gravitational-force calculator returns
max(forceFloor, G * m1 * m2 / r^2) with G = 24000 and forceFloor = 1/2:
on the slider ranges it equals the floor when the raw value falls below
it and the raw value otherwise, and it is always strictly positive. -/
theorem calculateGravity_spec (m1 m2 r : ℚ)
    (_hm1 : 1 ≤ m1) (_hm1' : m1 ≤ 10) (_hm2 : 1 ≤ m2) (_hm2' : m2 ≤ 10)
    (_hr : 120 ≤ r) (_hr' : r ≤ 350) :
    Gravity.calculateGravity m1 m2 r =
      (if 24000 * m1 * m2 / (r * r) < 1 / 2 then 1 / 2
       else 24000 * m1 * m2 / (r * r)) ∧
    0 < Gravity.calculateGravity m1 m2 r := by
  constructor
  · unfold Gravity.calculateGravity
    rcases lt_or_le (24000 * m1 * m2 / (r * r)) (1 / 2) with h | h
    · rw [max_eq_left h.le, if_pos h]
    · rw [max_eq_right h, if_neg (not_lt.mpr h)]
  · exact lt_of_lt_of_le (by norm_num) (le_max_left _ _)

/-- Witness for C4: at m1 = 6, m2 = 3, r = 220 the force is
24000 * 18 / 48400 = 1080/121 (about 8.93, above the floor) and positive. -/
theorem calculateGravity_spec_witness :
    Gravity.calculateGravity 6 3 220 = 1080 / 121 ∧
    0 < Gravity.calculateGravity 6 3 220 :=
  ⟨by norm_num [Gravity.calculateGravity],
   (calculateGravity_spec 6 3 220 (by decide) (by decide) (by decide) (by decide)
      (by decide) (by decide)).2⟩

/-- C2: on every frame the two gravity arrows F_E and F_M are exact
negations of one another (both endpoints are the shared clamped
arrowLength times the unit direction between the bodies), so their
squared Euclidean lengths — hence their Euclidean lengths, the
nonnegative square roots — are equal for every parameter valuation,
in particular when the two masses differ. -/
theorem gravity_arrows_equal_length (width height cA sA : ℚ) (s : Gravity.State)
    (_hunit : cA ^ 2 + sA ^ 2 = 1)
    (_hm1 : 1 ≤ s.earthMass) (_hm1' : s.earthMass ≤ 10)
    (_hm2 : 1 ≤ s.moonMass) (_hm2' : s.moonMass ≤ 10)
    (_hr : 120 ≤ s.distance) (_hr' : s.distance ≤ 350) :
    ((Gravity.arrows width height cA sA s).1.toX - (Gravity.arrows width height cA sA s).1.fromX =
      -((Gravity.arrows width height cA sA s).2.toX - (Gravity.arrows width height cA sA s).2.fromX)) ∧
    ((Gravity.arrows width height cA sA s).1.toY - (Gravity.arrows width height cA sA s).1.fromY =
      -((Gravity.arrows width height cA sA s).2.toY - (Gravity.arrows width height cA sA s).2.fromY)) ∧
    (Gravity.arrows width height cA sA s).1.lenSq = (Gravity.arrows width height cA sA s).2.lenSq := by
  by_cases hv : s.viewMode = ViewMode.diagram <;>
    simp [Gravity.arrows, Arrow.lenSq, hv]

/-- Witness for C2: the initial diagram frame (m1 = 6, m2 = 3, r = 220,
direction (1,0)) has arrows of equal squared length. -/
theorem gravity_arrows_equal_length_witness :
    (Gravity.arrows 960 600 1 0 Gravity.init).1.lenSq =
      (Gravity.arrows 960 600 1 0 Gravity.init).2.lenSq :=
  (gravity_arrows_equal_length 960 600 1 0 Gravity.init (by simp) (by decide)
    (by decide) (by decide) (by decide) (by decide) (by decide)).2.2

/-- C6: a scheduler tick in explore mode while unpaused adds the strictly
positive increment 0.003 + (260/distance) * 0.002 to angleRadians, so the
angle never decreases; a tick taken in diagram mode or while paused leaves
angleRadians exactly unchanged. -/
theorem orbit_angle_evolution :
    (∀ s : Gravity.State, s.viewMode = ViewMode.explore → s.isPaused = false →
        120 ≤ s.distance → s.distance ≤ 350 →
        (Gravity.tick s).angle = s.angle + (3 / 1000 + 260 / s.distance * (2 / 1000)) ∧
        s.angle < (Gravity.tick s).angle) ∧
    (∀ s : Gravity.State, s.viewMode = ViewMode.diagram ∨ s.isPaused = true →
        (Gravity.tick s).angle = s.angle) := by
  constructor
  · intro s hv hp h120 h350
    have hd : (0 : ℚ) < s.distance := by linarith
    have hpos : (0 : ℚ) < 3 / 1000 + 260 / s.distance * (2 / 1000) := by positivity
    constructor
    · simp [Gravity.tick, hv, hp]
    · simp only [Gravity.tick, hv, hp]
      simp
      linarith
  · intro s h
    rcases h with hv | hp
    · have : ¬(s.isPaused = false ∧ s.viewMode = ViewMode.explore) := by
        rintro ⟨-, hx⟩
        rw [hv] at hx
        exact ViewMode.noConfusion hx
      simp only [Gravity.tick, if_neg this]
      split <;> rfl
    · have : ¬(s.isPaused = false ∧ s.viewMode = ViewMode.explore) := by
        rintro ⟨hx, -⟩
        rw [hp] at hx
        exact Bool.noConfusion hx
      simp only [Gravity.tick, if_neg this]
      split <;> rfl

/-- Witness for C6: from the initial state switched to explore mode
(distance 220, unpaused) one tick adds the positive increment; from the
initial diagram state one tick leaves the angle unchanged. -/
theorem orbit_angle_evolution_witness :
    ((Gravity.tick { Gravity.init with viewMode := ViewMode.explore }).angle =
        (0 : ℚ) + (3 / 1000 + 260 / 220 * (2 / 1000))) ∧
    (Gravity.tick Gravity.init).angle = Gravity.init.angle :=
  ⟨(orbit_angle_evolution.1 { Gravity.init with viewMode := ViewMode.explore }
      rfl rfl (by decide) (by decide)).1,
   orbit_angle_evolution.2 Gravity.init (Or.inl rfl)⟩

/-- C9: switching the view mode in either simulation, in either direction,
never mutates the physical parameters: the handler only writes the
viewMode state, so mass, speed, primaryMass, secondaryMass and separation
are all unchanged. -/
theorem setViewMode_preserves_params (m : ViewMode) (s : Contact.State) (t : Gravity.State) :
    (Contact.setViewMode m s).mass = s.mass ∧
    (Contact.setViewMode m s).velocity = s.velocity ∧
    (Gravity.setViewMode m t).earthMass = t.earthMass ∧
    (Gravity.setViewMode m t).moonMass = t.moonMass ∧
    (Gravity.setViewMode m t).distance = t.distance := by
  simp [Contact.setViewMode, Gravity.setViewMode]

/-- C8 counterexample: after one (unpaused, diagram) tick and a pause, the
orbit state has elapsedTime 1/50 and paused = true; reset restores the
parameters and the angle but leaves elapsedTime at 1/50 and paused at
true, so the result is not the canonical initial state, refuting the
claim that reset restores angleRadians, elapsedTime and paused. -/
theorem gravity_reset_keeps_time_and_pause :
    (Gravity.reset (Gravity.setIsPaused true (Gravity.tick Gravity.init))).time = 1 / 50 ∧
    (Gravity.reset (Gravity.setIsPaused true (Gravity.tick Gravity.init))).isPaused = true ∧
    Gravity.init.time = 0 ∧
    Gravity.init.isPaused = false ∧
    Gravity.reset (Gravity.setIsPaused true (Gravity.tick Gravity.init)) ≠ Gravity.init := by
  refine ⟨?_, ?_, rfl, rfl, ?_⟩
  · simp [Gravity.reset, Gravity.setIsPaused, Gravity.tick, Gravity.init]
    norm_num
  · simp [Gravity.reset, Gravity.setIsPaused, Gravity.tick, Gravity.init]
  · intro h
    have h2 : (Gravity.reset (Gravity.setIsPaused true (Gravity.tick Gravity.init))).isPaused =
        Gravity.init.isPaused := by rw [h]
    simp [Gravity.reset, Gravity.setIsPaused, Gravity.tick, Gravity.init] at h2

/-- C8 amended: from every state, reset returns the ContactState fully to
its canonical initial values (phase idle, positions zeroed, tick counter
and penetration target zeroed, ready = false, impact force 0 and active
false, both flags cleared), and in the orbit simulation resets
angleRadians to 0 and the parameters to their defaults (6, 3, 220), while
leaving elapsedTime and paused unchanged. -/
theorem reset_restores_canonical_state (s : Contact.State) (t : Gravity.State) :
    (Contact.reset s).phase = Phase.idle ∧
    (Contact.reset s).hammerY = 0 ∧
    (Contact.reset s).nailY = 0 ∧
    (Contact.reset s).impactFrames = 0 ∧
    (Contact.reset s).targetNailY = 0 ∧
    (Contact.reset s).ready = false ∧
    (Contact.reset s).impact = { force := 0, active := false } ∧
    (Contact.reset s).isStriking = false ∧
    (Contact.reset s).isHoldingContact = false ∧
    (Gravity.reset t).earthMass = 6 ∧
    (Gravity.reset t).moonMass = 3 ∧
    (Gravity.reset t).distance = 220 ∧
    (Gravity.reset t).angle = 0 ∧
    (Gravity.reset t).time = t.time ∧
    (Gravity.reset t).isPaused = t.isPaused := by
  simp [Contact.reset, Gravity.reset]

/-- C7 counterexample: the strike guard tests the isStriking flag, not the
phase.  A diagram-mode tick forces phase = contact while isStriking stays
false; after switching to explore mode, strike() in that contact-phase
state is accepted: it jumps the phase to descending and clears the
published impact, so it is not a no-op. -/
theorem strike_not_noop_in_forced_contact :
    (Contact.setViewMode ViewMode.explore (Contact.tick 600 Contact.init)).phase =
      Phase.contact ∧
    (Contact.setViewMode ViewMode.explore (Contact.tick 600 Contact.init)).isStriking =
      false ∧
    (Contact.handleStrike
        (Contact.setViewMode ViewMode.explore (Contact.tick 600 Contact.init))).phase =
      Phase.down ∧
    (Contact.handleStrike
        (Contact.setViewMode ViewMode.explore (Contact.tick 600 Contact.init))).impact ≠
      (Contact.setViewMode ViewMode.explore (Contact.tick 600 Contact.init)).impact := by
  simp [Contact.handleStrike, Contact.setViewMode, Contact.tick, Contact.init]

/-- C7 amended: a strike command issued while a strike is already in
progress (isStriking = true, which is the case in every phase other than
idle that was entered through strike()) is an idempotent no-op: it leaves
the entire state — phase, striker and target positions, and the published
ImpactResult — unchanged.  When the contact phase was instead forced by
diagram mode (isStriking = false), strike() is accepted and restarts the
machine. -/
theorem strike_noop_while_striking (s : Contact.State) (h : s.isStriking = true) :
    Contact.handleStrike s = s := by
  simp [Contact.handleStrike, h]

/-- Witness for the amended C7: striking twice from the initial state is
the same as striking once. -/
theorem strike_noop_while_striking_witness :
    Contact.handleStrike (Contact.handleStrike Contact.init) =
      Contact.handleStrike Contact.init :=
  strike_noop_while_striking (Contact.handleStrike Contact.init) rfl

/-- C1: at mass = 5, speed = 5 on a 960 x 600 surface (scale = 1) the
contact frame is in the contact phase with an active impact, yet the two
rendered arrows differ in length: both are built from the one clamped
value arrowLength = min(140 * scale, 550/9) = 550/9, but the shared
origin sits at nailY + 10 * scale while only the F_N endpoint is offset
by that same 10 * scale, so F_H spans 460/9 and F_N spans 550/9.  The
squared lengths (and hence the Euclidean lengths) differ, contradicting
the equal-length requirement stated by the claim and by the repository's
own FUNCTIONAL_SPEC.md. -/
theorem contact_arrow_lengths_unequal :
    (Contact.tick 600 Contact.init).phase = Phase.contact ∧
    (Contact.tick 600 Contact.init).impact.active = true ∧
    (Contact.arrows 960 600 (Contact.tick 600 Contact.init)).1.lenSq = (460 / 9) ^ 2 ∧
    (Contact.arrows 960 600 (Contact.tick 600 Contact.init)).2.lenSq = (550 / 9) ^ 2 ∧
    (Contact.arrows 960 600 (Contact.tick 600 Contact.init)).1.lenSq ≠
      (Contact.arrows 960 600 (Contact.tick 600 Contact.init)).2.lenSq := by
  refine ⟨?_, ?_, ?_, ?_, ?_⟩ <;>
    simp [Contact.tick, Contact.init, Contact.arrows, Arrow.lenSq,
      Contact.calculateForce, min_def] <;>
    norm_num

/-- C10 counterexample: from a contact-end state whose mass slider was
moved to 10 after the force 550 was sampled, the transition tick keeps
force = 550 and clears active (as the claim says) — but then switching to
diagram mode and ticking once republishes the impact with the freshly
computed force 1100, with no intervening strike() or reset(), refuting
"remaining unchanged until the next strike() or reset()". -/
theorem impact_force_recomputed_without_strike :
    (Contact.tick 600 Contact.contactEndScenario).phase = Phase.up ∧
    (Contact.tick 600 Contact.contactEndScenario).impact =
      { force := 550, active := false } ∧
    (Contact.tick 600
        (Contact.setViewMode ViewMode.diagram
          (Contact.tick 600 Contact.contactEndScenario))).impact.force = 1100 ∧
    (1100 : ℤ) ≠ 550 := by
  refine ⟨?_, ?_, ?_, by decide⟩ <;>
    simp [Contact.tick, Contact.contactEndScenario, Contact.setViewMode,
      Contact.calculateForce, min_def] <;>
    norm_num

/-- C10 amended: when the contact phase ends (the internal tick counter
exceeds 32 on an explore-mode tick and the machine transitions to
rising), only the active flag of the published ImpactResult is cleared
and its forceMagnitude keeps the last computed value; subsequent
explore-mode ticks in the rising and idle phases leave the published
ImpactResult unchanged, an accepted strike() resets it to force 0, and
reset() resets it to force 0 — a diagram-mode tick, however, may
republish it with a freshly computed force. -/
theorem contact_end_clears_only_active :
    (∀ (height : ℚ) (s : Contact.State),
        s.viewMode = ViewMode.explore → s.phase = Phase.contact →
        s.isHoldingContact = false → 32 ≤ s.impactFrames →
        (Contact.tick height s).phase = Phase.up ∧
        (Contact.tick height s).impact.force = s.impact.force ∧
        (Contact.tick height s).impact.active = false) ∧
    (∀ (height : ℚ) (s : Contact.State),
        s.viewMode = ViewMode.explore → (s.phase = Phase.up ∨ s.phase = Phase.idle) →
        (Contact.tick height s).impact = s.impact) ∧
    (∀ s : Contact.State, s.isStriking = false →
        (Contact.handleStrike s).impact = { force := 0, active := false }) ∧
    (∀ s : Contact.State, (Contact.reset s).impact = { force := 0, active := false }) := by
  refine ⟨?_, ?_, ?_, ?_⟩
  · intro height s hv hp hh hf
    have h32 : 32 < s.impactFrames + 1 := Nat.lt_succ_of_le hf
    by_cases hr : s.ready <;>
      simp [Contact.tick, hr, hv, hp, hh, h32] <;> split_ifs <;> simp
  · intro height s hv hp
    rcases hp with hp | hp <;> by_cases hr : s.ready <;>
      simp [Contact.tick, hr, hv, hp] <;> split_ifs <;> simp
  · intro s hs
    simp [Contact.handleStrike, hs]
  · intro s
    simp [Contact.reset]

/-- Witness for the amended C10: the contact-end scenario state, ticked
once, moves to the rising phase with force still 550 and active false. -/
theorem contact_end_clears_only_active_witness :
    (Contact.tick 600 Contact.contactEndScenario).phase = Phase.up ∧
    (Contact.tick 600 Contact.contactEndScenario).impact.force =
      Contact.contactEndScenario.impact.force ∧
    (Contact.tick 600 Contact.contactEndScenario).impact.active = false :=
  contact_end_clears_only_active.1 600 Contact.contactEndScenario rfl rfl rfl (by decide)

/-- Helper for C5: one animation frame preserves the invariant that the
published impact is active only in the contact phase. -/
theorem contact_tick_active_inv (height : ℚ) (s : Contact.State)
    (h : s.impact.active = true → s.phase = Phase.contact) :
    (Contact.tick height s).impact.active = true →
      (Contact.tick height s).phase = Phase.contact := by
  rcases s with ⟨phase, hy, ny, fr, tny, ready, m, v, strk, hold, ⟨force, active⟩, vm⟩
  cases vm <;> cases phase <;> cases ready <;> cases active <;>
    simp_all [Contact.tick] <;> split_ifs <;> simp_all

/-- Helper for C5: every external event preserves the invariant that the
published impact is active only in the contact phase. -/
theorem contact_applyOp_active_inv (op : Contact.Op) (s : Contact.State)
    (h : s.impact.active = true → s.phase = Phase.contact) :
    (Contact.applyOp op s).impact.active = true →
      (Contact.applyOp op s).phase = Phase.contact := by
  cases op with
  | tick height => exact contact_tick_active_inv height s h
  | strike =>
      simp only [Contact.applyOp, Contact.handleStrike]
      split_ifs with hs
      · exact h
      · simp
  | reset => simp [Contact.applyOp, Contact.reset]
  | setView m => simpa [Contact.applyOp, Contact.setViewMode] using h
  | setMass q => simpa [Contact.applyOp, Contact.setMass] using h
  | setVelocity q => simpa [Contact.applyOp, Contact.setVelocity] using h
  | holdDone => simpa [Contact.applyOp, Contact.holdDone] using h

/-- Helper for C5: the invariant is preserved along any event sequence. -/
theorem contact_foldl_active_inv (ops : List Contact.Op) :
    ∀ s : Contact.State, (s.impact.active = true → s.phase = Phase.contact) →
      ((ops.foldl (fun s op => Contact.applyOp op s) s).impact.active = true →
        (ops.foldl (fun s op => Contact.applyOp op s) s).phase = Phase.contact) := by
  induction ops with
  | nil => intro s h; simpa using h
  | cons op rest ih =>
      intro s h
      simpa using ih (Contact.applyOp op s) (contact_applyOp_active_inv op s h)

/-- C5: after any sequence of ticks, strike commands, resets, view-mode
switches, slider moves and hold expirations from the initial component
state, the published ImpactResult is active only while the phase is
contact; moreover any tick taken in diagram view mode forces the phase to
contact and keeps the impact active. -/
theorem impact_active_only_in_contact :
    (∀ ops : List Contact.Op,
        (Contact.run ops).impact.active = true →
          (Contact.run ops).phase = Phase.contact) ∧
    (∀ (height : ℚ) (s : Contact.State), s.viewMode = ViewMode.diagram →
        (Contact.tick height s).phase = Phase.contact ∧
        (Contact.tick height s).impact.active = true) := by
  constructor
  · intro ops
    have h0 : Contact.init.impact.active = true → Contact.init.phase = Phase.contact := by
      simp [Contact.init]
    simpa [Contact.run] using contact_foldl_active_inv ops Contact.init h0
  · intro height s hv
    by_cases hr : s.ready <;> by_cases ha : s.impact.active <;>
      simp [Contact.tick, hr, hv, ha]

/-- Witness for C5: the first diagram-mode frame from the initial state is
in the contact phase with an active impact. -/
theorem impact_active_only_in_contact_witness :
    (Contact.tick 600 Contact.init).phase = Phase.contact ∧
    (Contact.tick 600 Contact.init).impact.active = true :=
  impact_active_only_in_contact.2 600 Contact.init rfl

end NewtonLab
